import Mathlib

/-!
Verification of the job lifecycle & polling subsystem of the testops dashboard
client. The definitions below are a shallow embedding of:
  - `src/frontend/src/hooks/usePolling.ts` (the repeating-timer primitive),
  - `src/frontend/src/hooks/useJobWatcher.ts` (the per-job watcher),
  - the per-kind job-list stores in
    `src/frontend/src/pages/Testcases/TestcasesPage.tsx`,
    `src/frontend/src/pages/Standards/StandardsPage.tsx`,
    `src/frontend/src/pages/Autotests/AutotestsPage.tsx`, and the
    optimization page (in `src/frontend/src/components/common/GradientButton.tsx`).

The watcher/poller pair is modelled as an explicit event-driven state machine:
timer fires, fetch settlements, jobId prop changes and component disposal are
the events; the single-threaded JS event loop means each event's handler runs
atomically, and a React re-render (recomputing the polling `enabled` flag and
re-running the `usePolling` effect) happens synchronously after each state
update, before the next event.
-/

namespace Testops

/-- Job status enum, from the union type
`"pending" | "processing" | "completed" | "failed" | "cancelled"`
used by `JobInfo` / `StandardsJobInfo` and `JobStatus` in the client. -/
inductive JobStatus
  | pending
  | processing
  | completed
  | failed
  | cancelled
deriving DecidableEq, Repr

/-- A status is terminal when it is `completed`, `failed` or `cancelled`
(spec glossary: no further transitions possible). -/
def JobStatus.isTerminal : JobStatus → Bool
  | .completed => true
  | .failed => true
  | .cancelled => true
  | _ => false

/-- `useJobWatcher.ts` line 35: the completion callback is invoked exactly when
`["completed", "failed"].includes(result.status)` (and an `onDone` callback was
supplied, which every page in the repository does). -/
def firesOnDone : JobStatus → Bool
  | .completed => true
  | .failed => true
  | _ => false

/-- The nested `result` object of a standards job payload; only its optional
`violations` array matters to the client (its elements are opaque, so they are
modelled as `Unit`). -/
structure StandardsResult where
  violations : Option (List Unit) := none
deriving DecidableEq, Repr

/-- The fetched job payload (`BaseJob` in `useJobWatcher.ts`, refined by
`StandardsJobInfo` in `StandardsPage.tsx`): the fields the polling subsystem
reads are the id, the status, and the three places a violations count can
live. Absent (`undefined`) fields are `none`. -/
structure JobView where
  job_id : String
  status : JobStatus
  violations_count : Option Nat := none
  result : Option StandardsResult := none
  violations : Option (List Unit) := none
deriving DecidableEq, Repr

/-- `job.result?.violations?.length` coerced through JS truthiness: `undefined`
at either level behaves as length 0. -/
def resultViolationsLen (job : JobView) : Nat :=
  match job.result with
  | some r => (r.violations.getD []).length
  | none => 0

/-- `job.violations?.length` with `undefined` behaving as length 0. -/
def topViolationsLen (job : JobView) : Nat :=
  (job.violations.getD []).length

/-- `getViolationsCount` from `StandardsPage.tsx` lines 256-261 (the identical
copy inside the watcher callback is at lines 230-235):
```
if (job.violations_count !== undefined) return job.violations_count;
if (job.result?.violations?.length) return job.result.violations.length;
if (job.violations?.length) return job.violations.length;
return 0;
```
A JS `if (xs?.length)` guard is truthy only when the array is present and
non-empty, hence the `≠ 0` tests. -/
def getViolationsCount (job : JobView) : Nat :=
  match job.violations_count with
  | some c => c
  | none =>
    if resultViolationsLen job ≠ 0 then resultViolationsLen job
    else if topViolationsLen job ≠ 0 then topViolationsLen job
    else 0

/-- The `enabled` argument `useJobWatcher.ts` line 44 passes to `usePolling`:
`Boolean(jobId) && (!job || (job.status === "processing" || job.status === "pending"))`. -/
def watchEnabled (jobId : Option String) (job : Option JobView) : Bool :=
  jobId.isSome &&
    (match job with
     | none => true
     | some j => j.status == JobStatus.processing || j.status == JobStatus.pending)

/-- Outcome a fetch promise settles with: the parsed payload on fulfilment, an
error message on rejection (network failure / thrown error). -/
inductive FetchOutcome
  | ok (result : JobView)
  | err (msg : String)
deriving DecidableEq, Repr

/-- `Partial<StandardsJobInfo>` as passed to `updateJobStatus` / `onUpdate`:
each field is either absent (`none`, keep the old value) or present
(`some`, overwrite). -/
structure JobUpdate where
  job_id : Option String := none
  title : Option String := none
  status : Option JobStatus := none
  progress : Option Nat := none
  violations_count : Option Nat := none
deriving DecidableEq, Repr

/-- Client-persisted job summary (`StandardsJobInfo` in `StandardsPage.tsx`):
the fields a store entry carries and that `updateJobStatus` can merge into. -/
structure JobSummary where
  job_id : String
  title : String
  status : JobStatus
  progress : Option Nat := none
  files_count : Nat := 0
  checks : List String := []
  created_at : String := ""
  violations_count : Option Nat := none
deriving DecidableEq, Repr

/-- The JS object spread `{ ...job, ...updates }`: a shallow merge where every
field present in `updates` overwrites the corresponding field of `job`. -/
def mergeJob (job : JobSummary) (updates : JobUpdate) : JobSummary :=
  { job with
    job_id := updates.job_id.getD job.job_id
    title := updates.title.getD job.title
    status := updates.status.getD job.status
    progress := match updates.progress with
      | some p => some p
      | none => job.progress
    violations_count := match updates.violations_count with
      | some c => some c
      | none => job.violations_count }

/-- `updateJobStatus` from `StandardsPage.tsx` lines 65-71 (same shape at
`TestcasesPage.tsx` lines 82-88):
`prev.map(job => job.job_id === jobId ? { ...job, ...updates } : job)`. -/
def updateJobStatus (jobs : List JobSummary) (jobId : String) (updates : JobUpdate) :
    List JobSummary :=
  jobs.map fun job => if job.job_id = jobId then mergeJob job updates else job

/-- The completion callback `StandardsPage.tsx` lines 226-244 passes to
`useJobWatcher`: it closes over `liveJob` (the watcher's exposed job view as of
the render that created the closure); if that captured view is null the guard
`if (liveJob)` fails and no store update is made, otherwise it calls
`onUpdate({status: liveJob.status, progress: 100, violations_count: getViolationsCount(liveJob)})`. -/
def standardsOnDone (liveJob : Option JobView) : Option JobUpdate :=
  match liveJob with
  | none => none
  | some lj =>
    some { status := some lj.status
           progress := some 100
           violations_count := some (getViolationsCount lj) }

/-- State of one mounted job item: the `useJobWatcher` hook state (`job`,
`error`), the component's props (`jobId`), the `usePolling` effect's liveness
(`pollerActive` is true exactly while the interval timer is installed and the
effect's `isActive` flag is true), the fetches whose promises have not yet
settled (`inflight`, each paired with the `liveJob` view the completion
callback run by that tick has captured), and the observable outputs: how many
times the completion callback fired (`doneCount`) and the store updates it
issued (`storeUpdates`). -/
structure WState where
  jobId : Option String
  job : Option JobView
  error : Option String
  mounted : Bool
  pollerActive : Bool
  inflight : List (Option JobView × FetchOutcome)
  doneCount : Nat
  storeUpdates : List JobUpdate
deriving DecidableEq, Repr

/-- Events driving the watcher state machine. `tickStart o` is the interval
timer firing (or the immediate tick on effect start); the environment chooses
the outcome `o` the started fetch will later settle with. `settle i` is the
`i`-th pending fetch promise settling. `setId` is a re-render with a new
`jobId` prop. `unmount` is component disposal. -/
inductive Ev
  | tickStart (outcome : FetchOutcome)
  | settle (i : Nat)
  | setId (newId : Option String)
  | unmount
deriving DecidableEq, Repr

/-- The continuation of `poll` (`useJobWatcher.ts` lines 30-41) after
`await fetcher(jobId)` settles. On fulfilment: `setJob(result)`,
`setError(null)`, and the completion callback when
`["completed","failed"].includes(result.status)`; the callback is the page's
closure over the captured live view (`standardsOnDone captured`) and runs
unconditionally (it has no liveness guard), while the two state setters are
ignored by React once the component is unmounted. On rejection: the `catch`
block logs and does `setError(...)`, leaving `job` untouched. -/
def applySettle (s : WState) (captured : Option JobView) (outcome : FetchOutcome) : WState :=
  match outcome with
  | .err m =>
    { s with error := if s.mounted then some m else s.error }
  | .ok v =>
    let fired := firesOnDone v.status
    { s with
      job := if s.mounted then some v else s.job
      error := if s.mounted then none else s.error
      doneCount := s.doneCount + (if fired then 1 else 0)
      storeUpdates := s.storeUpdates ++
        (if fired then (standardsOnDone captured).toList else []) }

/-- One atomic step of the event loop.

`tickStart`: `usePolling.ts` lines 14-24 — the timer only exists while the
effect is alive and `tick` returns early unless `isActive` (both tracked by
`pollerActive`); the latest `poll` closure (`savedCallback.current`) returns
early when `jobId` is null, otherwise it starts `fetcher(jobId)`, capturing the
current `job` view in the closure the completion callback will read.

`settle`: the chosen pending fetch settles and `applySettle` runs; afterwards
React re-renders and the `usePolling` effect re-evaluates its `enabled`
dependency, so the timer is alive afterwards iff the component is still
mounted and `watchEnabled` holds of the new state.

`setId`: a re-render with a new `jobId` prop; `useJobWatcher` resets nothing,
it only recomputes `enabled`.

`unmount`: the effect cleanup (`usePolling.ts` lines 26-29) sets
`isActive = false` and clears the interval. -/
def step (s : WState) : Ev → WState
  | .tickStart o =>
    if s.pollerActive then
      match s.jobId with
      | none => s
      | some _ => { s with inflight := s.inflight ++ [(s.job, o)] }
    else s
  | .settle i =>
    match s.inflight[i]? with
    | none => s
    | some (captured, o) =>
      let s1 := applySettle { s with inflight := s.inflight.eraseIdx i } captured o
      { s1 with pollerActive := s1.mounted && watchEnabled s1.jobId s1.job }
  | .setId newId =>
    { s with jobId := newId, pollerActive := s.mounted && watchEnabled newId s.job }
  | .unmount =>
    { s with mounted := false, pollerActive := false }

/-- Run a sequence of events. -/
def run (s : WState) (evs : List Ev) : WState :=
  evs.foldl step s

/-- State of a freshly mounted job item watching `jid`: `useState(null)` for
both `job` and `error`, no pending fetches, and the polling effect active iff
`watchEnabled jid none` (i.e. iff `jid` is non-null). -/
def initState (jid : Option String) : WState :=
  { jobId := jid
    job := none
    error := none
    mounted := true
    pollerActive := watchEnabled jid none
    inflight := []
    doneCount := 0
    storeUpdates := [] }

/-- The result of `JSON.parse` on a persisted blob: it either throws
(`failure`) or yields the stored job list (`success`). -/
inductive ParsedBlob
  | failure (msg : String)
  | success (jobs : List JobSummary)
deriving DecidableEq, Repr

/-- The hydration effect run on mount (`StandardsPage.tsx` lines 32-41,
identical shape on the other three pages):
```
const savedJobs = localStorage.getItem(key);
if (savedJobs) { try { setAllJobs(JSON.parse(savedJobs)); } catch (e) { console.error(...); } }
```
Input `none` is `getItem` returning null (or an empty, falsy string): the list
keeps its initial `[]` value. A parse failure is caught - the function is
total, so no exception reaches the caller - logging (second component `true`)
and keeping `[]`. A successful parse installs exactly the stored list. -/
def hydrateJobs : Option ParsedBlob → List JobSummary × Bool
  | none => ([], false)
  | some (.failure _) => ([], true)
  | some (.success l) => (l, false)

/-- The four job-list store instances in the client, one per page. -/
inductive JobKind
  | testcases
  | autotests
  | standards
  | optimization
deriving DecidableEq, Repr

/-- The durable-storage key each page passes to `localStorage.getItem` /
`setItem`: `TestcasesPage.tsx` lines 36/48, `AutotestsPage.tsx` lines 32/44,
`StandardsPage.tsx` lines 33/45, and the optimization page lines 52/64. -/
def storageKey : JobKind → String
  | .testcases => "testops_jobs"
  | .autotests => "testops_autotest_jobs"
  | .standards => "testops_standards_jobs"
  | .optimization => "testops_optimization_jobs"

/-- The key pattern the spec prescribes: `testops_<kind>_jobs`. -/
def patternKey (kind : String) : String :=
  "testops_" ++ kind ++ "_jobs"

/-- A fetched payload reporting `completed`. -/
def vDone : JobView := { job_id := "j1", status := JobStatus.completed }

/-- A fetched payload reporting `processing`. -/
def vProc : JobView := { job_id := "j1", status := JobStatus.processing }

/-- A fetched payload reporting `cancelled`. -/
def vCanc : JobView := { job_id := "j1", status := JobStatus.cancelled }

/-- A watcher one fetch into its life: the first tick has started and its
promise (which will report `cancelled`) has not settled yet. -/
def exPrimedCanc : WState :=
  run (initState (some "j1")) [Ev.tickStart (FetchOutcome.ok vCanc)]

/-- A watcher whose very first fetch, still in flight, will report
`completed`; its captured live view is therefore `none`. -/
def exPrimedDone : WState :=
  run (initState (some "j1")) [Ev.tickStart (FetchOutcome.ok vDone)]

/-- A disposed watcher (its `jobId` prop was nulled while a fetch was still in
flight): reachable as
`run (initState (some "j1")) [tickStart (ok vProc), settle 0, tickStart (ok vDone), setId none]`. -/
def exDisposed : WState :=
  run (initState (some "j1"))
    [Ev.tickStart (FetchOutcome.ok vProc), Ev.settle 0,
     Ev.tickStart (FetchOutcome.ok vDone), Ev.setId none]

/-- A payload with no explicit count, an empty nested `result.violations`
array and a two-element top-level `violations` array. -/
def exShaped : JobView :=
  { job_id := "j9", status := JobStatus.completed,
    violations_count := none,
    result := some { violations := some [] },
    violations := some [(), ()] }

/-- A persisted summary used in store examples. -/
def exJobA : JobSummary :=
  { job_id := "a1", title := "Проверка 2 файлов", status := JobStatus.pending,
    progress := some 10, files_count := 2, checks := ["aaa"], created_at := "t0" }

/-- A second persisted summary with a different id. -/
def exJobB : JobSummary :=
  { job_id := "b2", title := "Проверка 1 файлов", status := JobStatus.processing,
    progress := some 50, files_count := 1, checks := ["allure"], created_at := "t1" }

/-- The update a completion callback issues for a processing live view with no
violations. -/
def exUpd : JobUpdate :=
  { status := some JobStatus.completed, progress := some 100, violations_count := some 0 }

/-! ## Theorems -/

/-- Helper: a terminal status is neither `processing` nor `pending`, so the
`enabled` test of `useJobWatcher.ts` line 44 rejects it. -/
theorem terminal_not_pollable (st : JobStatus) (hterm : st.isTerminal = true) :
    (st == JobStatus.processing || st == JobStatus.pending) = false := by
  cases st <;> simp_all [JobStatus.isTerminal]

/-- Helper: `watchEnabled` is false whenever the job view is terminal. -/
theorem watchEnabled_terminal (jid : Option String) (v : JobView)
    (hterm : v.status.isTerminal = true) :
    watchEnabled jid (some v) = false := by
  simp [watchEnabled, terminal_not_pollable v.status hterm]

/-- C1 (counterexample): a fetch result with status `cancelled` is terminal,
and the next scheduling decision does disable the Poller, yet the completion
callback is NOT invoked (`useJobWatcher.ts` line 35 tests only `completed` and
`failed`), refuting the claim that it fires for all three terminal values. -/
theorem cancelled_settle_does_not_fire_onDone :
    (run (initState (some "j1"))
        [Ev.tickStart (FetchOutcome.ok vCanc), Ev.settle 0]).doneCount = 0 ∧
    vCanc.status.isTerminal = true ∧
    (run (initState (some "j1"))
        [Ev.tickStart (FetchOutcome.ok vCanc), Ev.settle 0]).pollerActive = false := by
  decide

/-- C1 (amended): when a settling fetch carries any of the three terminal
statuses, the next scheduling decision is disabled (`watchEnabled` is false on
the new state and the Poller is torn down); the completion callback is invoked
exactly when the status is `completed` or `failed` — a `cancelled` result
stops polling without invoking the callback. -/
theorem terminal_settle_stops_polling (s : WState) (i : Nat)
    (captured : Option JobView) (v : JobView)
    (hin : s.inflight[i]? = some (captured, FetchOutcome.ok v))
    (hterm : v.status.isTerminal = true) (hm : s.mounted = true) :
    (step s (Ev.settle i)).pollerActive = false ∧
    watchEnabled (step s (Ev.settle i)).jobId (step s (Ev.settle i)).job = false ∧
    (step s (Ev.settle i)).doneCount =
      s.doneCount + (if firesOnDone v.status then 1 else 0) ∧
    (firesOnDone v.status = true ↔
      (v.status = JobStatus.completed ∨ v.status = JobStatus.failed)) := by
  have hp := terminal_not_pollable v.status hterm
  refine ⟨?_, ?_, ?_, ?_⟩
  · simp [step, hin, applySettle, watchEnabled, hm, hp]
  · simp [step, hin, applySettle, watchEnabled, hm, hp]
  · simp [step, hin, applySettle]
  · cases h : v.status <;> simp_all [firesOnDone, JobStatus.isTerminal]

/-- Witness for `terminal_settle_stops_polling` at the concrete
cancelled-result state. -/
theorem terminal_settle_stops_polling_witness :
    (step exPrimedCanc (Ev.settle 0)).pollerActive = false ∧
    watchEnabled (step exPrimedCanc (Ev.settle 0)).jobId
      (step exPrimedCanc (Ev.settle 0)).job = false ∧
    (step exPrimedCanc (Ev.settle 0)).doneCount =
      exPrimedCanc.doneCount + (if firesOnDone vCanc.status then 1 else 0) ∧
    (firesOnDone vCanc.status = true ↔
      (vCanc.status = JobStatus.completed ∨ vCanc.status = JobStatus.failed)) :=
  terminal_settle_stops_polling exPrimedCanc 0 none vCanc (by decide) (by decide) (by decide)

/-- C2 (counterexample): with a fetch slower than the 2-second interval, a
second tick starts before the first settles; both settle with `completed` and
the completion callback fires twice for the same job id, refuting
at-most-once invocation. -/
theorem overlapping_terminal_settles_fire_onDone_twice :
    (run (initState (some "j1"))
        [Ev.tickStart (FetchOutcome.ok vDone), Ev.tickStart (FetchOutcome.ok vDone),
         Ev.settle 0, Ev.settle 0]).doneCount = 2 := by
  decide

/-- C2 (amended): the completion callback fires once per observed
`completed`/`failed` fetch settlement — there is no first-observation guard,
so each terminal settlement increments the invocation count by one regardless
of how many came before. -/
theorem onDone_fires_per_terminal_settle (s : WState) (i : Nat)
    (captured : Option JobView) (v : JobView)
    (hin : s.inflight[i]? = some (captured, FetchOutcome.ok v))
    (hfire : firesOnDone v.status = true) :
    (step s (Ev.settle i)).doneCount = s.doneCount + 1 := by
  simp [step, hin, applySettle, hfire]

/-- Witness for `onDone_fires_per_terminal_settle`. -/
theorem onDone_fires_per_terminal_settle_witness :
    (step exPrimedDone (Ev.settle 0)).doneCount = exPrimedDone.doneCount + 1 :=
  onDone_fires_per_terminal_settle exPrimedDone 0 none vDone (by decide) (by decide)

/-- C3 (counterexample): two timer ticks fire before either fetch settles and
both start a request for the same watched id, so two fetches are in flight at
once, refuting strict sequentiality. -/
theorem two_fetches_in_flight_for_same_id :
    (run (initState (some "j1"))
        [Ev.tickStart (FetchOutcome.ok vProc), Ev.tickStart (FetchOutcome.ok vDone)]
      ).inflight.length = 2 := by
  decide

/-- C3 (amended): `setInterval` in `usePolling.ts` line 23 triggers `tick` on
a fixed cadence with no serialisation against the previous tick's promise: as
long as the poller is active and an id is watched, every tick starts one more
fetch regardless of how many are already in flight, and a further tick can
immediately do the same — so a fetch outlasting the 2-second interval yields
overlapping in-flight requests for the same id. -/
theorem tick_starts_regardless_of_inflight (s : WState) (o o2 : FetchOutcome)
    (j : String) (hact : s.pollerActive = true) (hid : s.jobId = some j) :
    (step s (Ev.tickStart o)).inflight.length = s.inflight.length + 1 ∧
    (step (step s (Ev.tickStart o)) (Ev.tickStart o2)).inflight.length =
      s.inflight.length + 2 := by
  constructor
  · simp [step, hact, hid]
  · simp [step, hact, hid]

/-- Witness for `tick_starts_regardless_of_inflight`. -/
theorem tick_starts_regardless_of_inflight_witness :
    (step exPrimedDone (Ev.tickStart (FetchOutcome.ok vDone))).inflight.length =
      exPrimedDone.inflight.length + 1 ∧
    (step (step exPrimedDone (Ev.tickStart (FetchOutcome.ok vDone)))
        (Ev.tickStart (FetchOutcome.ok vDone))).inflight.length =
      exPrimedDone.inflight.length + 2 :=
  tick_starts_regardless_of_inflight exPrimedDone (FetchOutcome.ok vDone)
    (FetchOutcome.ok vDone) "j1" (by decide) (by decide)

/-- C4 (counterexample): a watcher whose `jobId` is nulled while a fetch is in
flight. When that fetch settles with `completed`, it still replaces the job
view, still fires the completion callback, and the callback still issues a
store update (built from the live view captured at tick start, here
`processing`) — refuting the claim that no state is mutated after disposal. -/
theorem settle_after_disposal_mutates_state :
    exDisposed.jobId = none ∧ exDisposed.pollerActive = false ∧
    (step exDisposed (Ev.settle 0)).job = some vDone ∧
    (step exDisposed (Ev.settle 0)).doneCount = 1 ∧
    (step exDisposed (Ev.settle 0)).storeUpdates =
      [{ status := some JobStatus.processing, progress := some 100,
         violations_count := some 0 }] := by
  decide

/-- C4 (amended): disposal only guards the start of new ticks: once the
Poller is torn down (`isActive = false`, interval cleared) a timer event is a
no-op, but the continuation after `await fetcher(jobId)` in
`useJobWatcher.ts` has no liveness check, so an already in-flight fetch that
settles after disposal still replaces the job view, and — when it carries
`completed`/`failed` — still fires the completion callback and its store
update. -/
theorem disposal_blocks_ticks_not_settlements (s : WState)
    (captured : Option JobView) (v : JobView)
    (rest : List (Option JobView × FetchOutcome))
    (hdisp : s.pollerActive = false) (hm : s.mounted = true)
    (hin : s.inflight = (captured, FetchOutcome.ok v) :: rest) :
    (∀ o, step s (Ev.tickStart o) = s) ∧
    (step s (Ev.settle 0)).job = some v ∧
    (firesOnDone v.status = true →
      (step s (Ev.settle 0)).doneCount = s.doneCount + 1 ∧
      (step s (Ev.settle 0)).storeUpdates =
        s.storeUpdates ++ (standardsOnDone captured).toList) := by
  refine ⟨fun o => ?_, ?_, fun hfire => ⟨?_, ?_⟩⟩
  · simp [step, hdisp]
  · simp [step, hin, applySettle, hm]
  · simp [step, hin, applySettle, hfire]
  · simp [step, hin, applySettle, hfire]

/-- Witness for `disposal_blocks_ticks_not_settlements` at the disposed
watcher state. -/
theorem disposal_blocks_ticks_not_settlements_witness :
    (∀ o, step exDisposed (Ev.tickStart o) = exDisposed) ∧
    (step exDisposed (Ev.settle 0)).job = some vDone ∧
    (firesOnDone vDone.status = true →
      (step exDisposed (Ev.settle 0)).doneCount = exDisposed.doneCount + 1 ∧
      (step exDisposed (Ev.settle 0)).storeUpdates =
        exDisposed.storeUpdates ++ (standardsOnDone (some vProc)).toList) :=
  disposal_blocks_ticks_not_settlements exDisposed (some vProc) vDone []
    (by decide) (by decide) (by decide)

/-- C5 (counterexample): a watcher observes `completed` for `"j1"`, then its
`jobId` prop switches to `"j2"`: the exposed job view is NOT reset (it still
shows the `"j1"` result), and because that stale view is terminal the
scheduling decision stays disabled, so no fresh polling starts for `"j2"`;
switching further to null still leaves the stale non-null view exposed. -/
theorem jobId_switch_keeps_stale_state :
    (run (initState (some "j1"))
        [Ev.tickStart (FetchOutcome.ok vDone), Ev.settle 0,
         Ev.setId (some "j2")]).job = some vDone ∧
    (run (initState (some "j1"))
        [Ev.tickStart (FetchOutcome.ok vDone), Ev.settle 0,
         Ev.setId (some "j2")]).pollerActive = false ∧
    (run (initState (some "j1"))
        [Ev.tickStart (FetchOutcome.ok vDone), Ev.settle 0,
         Ev.setId (some "j2"), Ev.setId none]).jobId = none ∧
    (run (initState (some "j1"))
        [Ev.tickStart (FetchOutcome.ok vDone), Ev.settle 0,
         Ev.setId (some "j2"), Ev.setId none]).job = some vDone := by
  decide

/-- C5 (amended): `useJobWatcher` resets nothing on a `jobId` change: the
exposed job view and error keep their previous values; polling for the new id
(re)starts only if the retained view is absent or still pollable — in
particular, if the retained view is terminal the Poller stays disabled. A null
`jobId` disables the Poller so no new tick starts, but the exposed view keeps
its previous (possibly non-null) value. -/
theorem setId_keeps_state_no_reset (s : WState) (newId : Option String) :
    (step s (Ev.setId newId)).job = s.job ∧
    (step s (Ev.setId newId)).error = s.error ∧
    (∀ v, s.job = some v → v.status.isTerminal = true →
      (step s (Ev.setId newId)).pollerActive = false) ∧
    (newId = none →
      ∀ o, step (step s (Ev.setId newId)) (Ev.tickStart o) = step s (Ev.setId newId)) := by
  refine ⟨rfl, rfl, fun v hv hterm => ?_, fun hnone o => ?_⟩
  · simp [step, hv, watchEnabled_terminal _ _ hterm]
  · subst hnone
    simp [step, watchEnabled]

/-- Witness for `setId_keeps_state_no_reset` at the state that has just
observed `completed` for `"j1"`, switching to `"j2"`. -/
theorem setId_keeps_state_no_reset_witness :
    (step (run (initState (some "j1"))
        [Ev.tickStart (FetchOutcome.ok vDone), Ev.settle 0])
      (Ev.setId (some "j2"))).job =
        (run (initState (some "j1"))
          [Ev.tickStart (FetchOutcome.ok vDone), Ev.settle 0]).job ∧
    vDone.status.isTerminal = true ∧
    (step (run (initState (some "j1"))
        [Ev.tickStart (FetchOutcome.ok vDone), Ev.settle 0])
      (Ev.setId (some "j2"))).pollerActive = false :=
  ⟨(setId_keeps_state_no_reset _ (some "j2")).1, by decide,
   (setId_keeps_state_no_reset _ (some "j2")).2.2.1 vDone (by decide) (by decide)⟩

/-- C6 (counterexample): the testcases page persists its job list under
`"testops_jobs"` (`TestcasesPage.tsx` line 48), which does not follow the
claimed `testops_<kind>_jobs` pattern. -/
theorem testcases_key_breaks_pattern :
    storageKey JobKind.testcases ≠ patternKey "testcases" ∧
    storageKey JobKind.testcases = "testops_jobs" := by
  decide

/-- C6 (amended): each job kind persists under its own key and the four keys
are pairwise distinct (no collision or cross-contamination between kinds), but
they do not all follow the `testops_<kind>_jobs` pattern: testcases uses
`testops_jobs`, and autotests uses the singular `testops_autotest_jobs`. -/
theorem storageKey_injective (k k' : JobKind) (h : storageKey k = storageKey k') :
    k = k' := by
  revert h
  cases k <;> cases k' <;> decide

/-- Witness for `storageKey_injective`. -/
theorem storageKey_injective_witness : JobKind.standards = JobKind.standards :=
  storageKey_injective JobKind.standards JobKind.standards (by decide)

/-- C7: hydration on mount never throws to the caller (`hydrateJobs` is a
total function — the `try`/`catch` around `JSON.parse` converts the only
throwing operation into the logged-failure branch): a missing blob or an
unparsable blob both yield the empty in-memory list, the parse failure is
logged exactly in the unparsable case, and a valid blob yields exactly the
stored list. -/
theorem hydration_fails_soft (b : Option ParsedBlob) :
    (b = none → hydrateJobs b = ([], false)) ∧
    (∀ m, b = some (ParsedBlob.failure m) → hydrateJobs b = ([], true)) ∧
    (∀ l, b = some (ParsedBlob.success l) → hydrateJobs b = (l, false)) ∧
    ((hydrateJobs b).2 = true ↔ ∃ m, b = some (ParsedBlob.failure m)) := by
  refine ⟨fun h => by subst h; rfl,
          fun m h => by subst h; rfl,
          fun l h => by subst h; rfl, ?_⟩
  cases b with
  | none => simp [hydrateJobs]
  | some p => cases p <;> simp [hydrateJobs]

/-- Witness for `hydration_fails_soft` on a corrupt blob. -/
theorem hydration_fails_soft_witness :
    hydrateJobs (some (ParsedBlob.failure "Unexpected token")) = ([], true) :=
  (hydration_fails_soft (some (ParsedBlob.failure "Unexpected token"))).2.1
    "Unexpected token" rfl

/-- C8: `getViolationsCount` probes the payload shapes in a fixed precedence
order and the first shape that applies (its JS guard is truthy) determines the
result: an explicit `violations_count` field wins outright (even when later
shapes are populated), else a present non-empty `result.violations` array
contributes its length, else a present non-empty top-level `violations` array
contributes its length, else the count is zero. -/
theorem getViolationsCount_precedence (j : JobView) :
    (∀ c, j.violations_count = some c → getViolationsCount j = c) ∧
    (j.violations_count = none → resultViolationsLen j ≠ 0 →
      getViolationsCount j = resultViolationsLen j) ∧
    (j.violations_count = none → resultViolationsLen j = 0 →
      topViolationsLen j ≠ 0 → getViolationsCount j = topViolationsLen j) ∧
    (j.violations_count = none → resultViolationsLen j = 0 →
      topViolationsLen j = 0 → getViolationsCount j = 0) := by
  refine ⟨fun c hc => ?_, fun h0 h1 => ?_, fun h0 h1 h2 => ?_, fun h0 h1 h2 => ?_⟩ <;>
    simp [getViolationsCount, *]

/-- Witness for `getViolationsCount_precedence`: a payload whose nested
`result.violations` is a present but empty array falls through to the
two-element top-level `violations` array. -/
theorem getViolationsCount_precedence_witness :
    getViolationsCount exShaped = topViolationsLen exShaped ∧
    topViolationsLen exShaped = 2 :=
  ⟨(getViolationsCount_precedence exShaped).2.2.1 rfl rfl (by decide), by decide⟩

/-- C9: `updateJobStatus jobs jobId updates` preserves the list's length and
order, rewrites exactly the positions whose entry's `job_id` matches `jobId`
to the shallow merge `{ ...job, ...updates }` while every other position is
unchanged, and when no entry matches it returns the list unchanged (a total
function: it never throws). -/
theorem updateJobStatus_spec (l : List JobSummary) (jid : String) (u : JobUpdate) :
    (updateJobStatus l jid u).length = l.length ∧
    (∀ i : Nat, (updateJobStatus l jid u)[i]? =
      (l[i]?).map fun j => if j.job_id = jid then mergeJob j u else j) ∧
    ((∀ j ∈ l, j.job_id ≠ jid) → updateJobStatus l jid u = l) := by
  refine ⟨by simp [updateJobStatus], fun i => by simp [updateJobStatus], ?_⟩
  induction l with
  | nil => intro _; rfl
  | cons a t ih =>
    intro h
    have ha : a.job_id ≠ jid := h a (by simp)
    have ht := ih fun j hj => h j (by simp [hj])
    simp only [updateJobStatus, List.map_cons] at ht ⊢
    rw [if_neg ha, ht]

/-- Witness for `updateJobStatus_spec`: updating a non-existent id is a
no-op. -/
theorem updateJobStatus_spec_witness :
    updateJobStatus [exJobA, exJobB] "zzz" exUpd = [exJobA, exJobB] :=
  (updateJobStatus_spec [exJobA, exJobB] "zzz" exUpd).2.2 (by decide)

/-- C10: the store update issued when the completion callback fires is built
from the live view the callback's closure captured when its tick started (the
render before the triggering fetch), not from the fetch result that carried
the terminal status: the appended update is `standardsOnDone captured` — in
particular, when the very first observed fetch is already terminal the
captured view is null, the `if (liveJob)` guard fails and the persisted
summary is not updated at all; when a view was captured, the update carries
that view's (stale) status, progress 100 and that view's violations count.
The last conjunct shows the capture itself: a starting tick records the
watcher's current `job` view for its future settlement. -/
theorem onDone_reads_captured_view (s : WState) (i : Nat)
    (captured : Option JobView) (v : JobView)
    (hin : s.inflight[i]? = some (captured, FetchOutcome.ok v))
    (hfire : firesOnDone v.status = true) :
    (step s (Ev.settle i)).storeUpdates =
      s.storeUpdates ++ (standardsOnDone captured).toList ∧
    (captured = none → (step s (Ev.settle i)).storeUpdates = s.storeUpdates) ∧
    (∀ lj, captured = some lj →
      (step s (Ev.settle i)).storeUpdates = s.storeUpdates ++
        [{ status := some lj.status, progress := some 100,
           violations_count := some (getViolationsCount lj) }]) ∧
    (∀ o j, s.pollerActive = true → s.jobId = some j →
      (step s (Ev.tickStart o)).inflight = s.inflight ++ [(s.job, o)]) := by
  refine ⟨?_, fun hc => ?_, fun lj hc => ?_, fun o j hact hid => ?_⟩
  · simp [step, hin, applySettle, hfire]
  · subst hc; simp [step, hin, applySettle, hfire, standardsOnDone]
  · subst hc; simp [step, hin, applySettle, hfire, standardsOnDone]
  · simp [step, hact, hid]

/-- Witness for `onDone_reads_captured_view`: the watcher's very first fetch
reports `completed`; its captured live view is null, so no store update is
issued even though the callback fired. -/
theorem onDone_reads_captured_view_witness :
    (step exPrimedDone (Ev.settle 0)).storeUpdates = exPrimedDone.storeUpdates ∧
    (step exPrimedDone (Ev.settle 0)).doneCount = 1 :=
  ⟨(onDone_reads_captured_view exPrimedDone 0 none vDone (by decide) (by decide)).2.1 rfl,
   by decide⟩

end Testops
